import Mathlib

/-!
Verification of the core logic of the usGcode-ifier tool (src/main.rs):
the dimension-attribute sanitiser/resolver and the command-stream
compactor.  Strings are embedded as `List Char`, the `f64` values the
program computes with as exact rationals (every numeric literal the
claims evaluate is exactly representable), and the fatal `unwrap`
panic as an explicit `ResolveResult.panic` constructor.
-/

namespace USGcodeIfier

/-- Embedding of Rust's `str::starts_with` applied to a single-character
pattern, as in `line.to_string().starts_with("X")`: true iff the string is
nonempty and its first character is `c`. -/
def startsWithChar (s : List Char) (c : Char) : Bool :=
  match s with
  | [] => false
  | a :: _ => a = c

/-- First branch condition of the compactor loop in `main`:
`starts_with("X") || starts_with("Y") || starts_with("Z") || starts_with("F")`. -/
def isCoordinateToken (t : List Char) : Bool :=
  startsWithChar t 'X' || startsWithChar t 'Y' || startsWithChar t 'Z' ||
    startsWithChar t 'F'

/-- Second branch condition of the compactor loop: `starts_with(";")`. -/
def isCommentToken (t : List Char) : Bool :=
  startsWithChar t ';'

/-- A token that falls through to the final `else` branch of the compactor
loop (neither coordinate/feedrate class nor comment class). -/
def isCommandToken (t : List Char) : Bool :=
  !isCoordinateToken t && !isCommentToken t

/-- The text one iteration of the compactor loop in `main` writes for the
token `t`: `" {t}"` for the coordinate/feedrate branch, nothing for the
comment branch, `"\n{t}"` for the final branch. -/
def renderToken (t : List Char) : List Char :=
  if isCoordinateToken t then ' ' :: t
  else if isCommentToken t then []
  else '\n' :: t

/-- The whole compactor loop of `main`: the output file's contents after
iterating over the token sequence in order, appending each token's text
to what was already written. -/
def compact (ts : List (List Char)) : List Char :=
  ts.foldl (fun out t => out ++ renderToken t) []

/-- The complete list of codepoint ranges of the Unicode general
categories Nd, Nl and No (Unicode 15.0), i.e. the set of characters
accepted by Rust std's `char::is_numeric`. -/
def rustNumericRanges : List (Nat × Nat) := [
  (0x30, 0x39), (0xB2, 0xB3), (0xB9, 0xB9),
  (0xBC, 0xBE), (0x660, 0x669), (0x6F0, 0x6F9),
  (0x7C0, 0x7C9), (0x966, 0x96F), (0x9E6, 0x9EF),
  (0x9F4, 0x9F9), (0xA66, 0xA6F), (0xAE6, 0xAEF),
  (0xB66, 0xB6F), (0xB72, 0xB77), (0xBE6, 0xBF2),
  (0xC66, 0xC6F), (0xC78, 0xC7E), (0xCE6, 0xCEF),
  (0xD58, 0xD5E), (0xD66, 0xD78), (0xDE6, 0xDEF),
  (0xE50, 0xE59), (0xED0, 0xED9), (0xF20, 0xF33),
  (0x1040, 0x1049), (0x1090, 0x1099), (0x1369, 0x137C),
  (0x16EE, 0x16F0), (0x17E0, 0x17E9), (0x17F0, 0x17F9),
  (0x1810, 0x1819), (0x1946, 0x194F), (0x19D0, 0x19DA),
  (0x1A80, 0x1A89), (0x1A90, 0x1A99), (0x1B50, 0x1B59),
  (0x1BB0, 0x1BB9), (0x1C40, 0x1C49), (0x1C50, 0x1C59),
  (0x2070, 0x2070), (0x2074, 0x2079), (0x2080, 0x2089),
  (0x2150, 0x2182), (0x2185, 0x2189), (0x2460, 0x249B),
  (0x24EA, 0x24FF), (0x2776, 0x2793), (0x2CFD, 0x2CFD),
  (0x3007, 0x3007), (0x3021, 0x3029), (0x3038, 0x303A),
  (0x3192, 0x3195), (0x3220, 0x3229), (0x3248, 0x324F),
  (0x3251, 0x325F), (0x3280, 0x3289), (0x32B1, 0x32BF),
  (0xA620, 0xA629), (0xA6E6, 0xA6EF), (0xA830, 0xA835),
  (0xA8D0, 0xA8D9), (0xA900, 0xA909), (0xA9D0, 0xA9D9),
  (0xA9F0, 0xA9F9), (0xAA50, 0xAA59), (0xABF0, 0xABF9),
  (0xFF10, 0xFF19), (0x10107, 0x10133), (0x10140, 0x10178),
  (0x1018A, 0x1018B), (0x102E1, 0x102FB), (0x10320, 0x10323),
  (0x10341, 0x10341), (0x1034A, 0x1034A), (0x103D1, 0x103D5),
  (0x104A0, 0x104A9), (0x10858, 0x1085F), (0x10879, 0x1087F),
  (0x108A7, 0x108AF), (0x108FB, 0x108FF), (0x10916, 0x1091B),
  (0x109BC, 0x109BD), (0x109C0, 0x109CF), (0x109D2, 0x109FF),
  (0x10A40, 0x10A48), (0x10A7D, 0x10A7E), (0x10A9D, 0x10A9F),
  (0x10AEB, 0x10AEF), (0x10B58, 0x10B5F), (0x10B78, 0x10B7F),
  (0x10BA9, 0x10BAF), (0x10CFA, 0x10CFF), (0x10D30, 0x10D39),
  (0x10E60, 0x10E7E), (0x10F1D, 0x10F26), (0x10F51, 0x10F54),
  (0x10FC5, 0x10FCB), (0x11052, 0x1106F), (0x110F0, 0x110F9),
  (0x11136, 0x1113F), (0x111D0, 0x111D9), (0x111E1, 0x111F4),
  (0x112F0, 0x112F9), (0x11450, 0x11459), (0x114D0, 0x114D9),
  (0x11650, 0x11659), (0x116C0, 0x116C9), (0x11730, 0x1173B),
  (0x118E0, 0x118F2), (0x11950, 0x11959), (0x11C50, 0x11C6C),
  (0x11D50, 0x11D59), (0x11DA0, 0x11DA9), (0x11F50, 0x11F59),
  (0x11FC0, 0x11FD4), (0x12400, 0x1246E), (0x16A60, 0x16A69),
  (0x16AC0, 0x16AC9), (0x16B50, 0x16B59), (0x16B5B, 0x16B61),
  (0x16E80, 0x16E96), (0x1D2C0, 0x1D2D3), (0x1D2E0, 0x1D2F3),
  (0x1D360, 0x1D378), (0x1D7CE, 0x1D7FF), (0x1E140, 0x1E149),
  (0x1E2F0, 0x1E2F9), (0x1E4F0, 0x1E4F9), (0x1E8C7, 0x1E8CF),
  (0x1E950, 0x1E959), (0x1EC71, 0x1ECAB), (0x1ECAD, 0x1ECAF),
  (0x1ECB1, 0x1ECB4), (0x1ED01, 0x1ED2D), (0x1ED2F, 0x1ED3D),
  (0x1F100, 0x1F10C), (0x1FBF0, 0x1FBF9)]

/-- Modelled from Rust std's `char::is_numeric`, called by
`sanitise_string`: true iff the character is in one of the Unicode
general categories Nd, Nl or No, i.e. in one of `rustNumericRanges`. -/
def rustIsNumeric (c : Char) : Bool :=
  rustNumericRanges.any (fun r => r.1 ≤ c.toNat && c.toNat ≤ r.2)

/-- Embedding of `sanitise_string` from src/main.rs: iterate over the
characters of `s`, pushing onto an initially empty output string every
character `c` with `c.is_numeric() || c == '.'`. -/
def sanitise_string (s : List Char) : List Char :=
  s.foldl (fun os c => if rustIsNumeric c || c = '.' then os ++ [c] else os) []

/-- Numeric value of an ASCII digit character. -/
def digitToNat (c : Char) : ℕ :=
  c.toNat - '0'.toNat

/-- Decimal value of a string of ASCII digits, most significant first. -/
def digitsVal (ds : List Char) : ℕ :=
  ds.foldl (fun n c => 10 * n + digitToNat c) 0

/-- Modelled from Rust std's `str::parse::<f64>` restricted to its
decimal-significand fragment `Digits '.' [Digits] | '.' Digits | Digits`
(the sign, exponent, `inf` and `nan` alternatives are unreachable at the
call sites, which only pass strings of numeric characters and dots), with
the parsed value taken exactly, as a rational. -/
def parseDecimal (s : List Char) : Option ℚ :=
  let intPart := s.takeWhile (fun c => c ≠ '.')
  match s.dropWhile (fun c => c ≠ '.') with
  | [] =>
      if intPart ≠ [] ∧ intPart.all Char.isDigit then
        some (digitsVal intPart : ℚ)
      else none
  | d :: frac =>
      if d = '.' ∧ intPart ++ frac ≠ [] ∧ intPart.all Char.isDigit ∧
          frac.all Char.isDigit then
        some ((digitsVal intPart : ℚ) + (digitsVal frac : ℚ) / 10 ^ frac.length)
      else none

/-- Unit tag of `svgtypes::Length`; the program only ever constructs the
`Mm` variant, the others are unreachable here and omitted. -/
inductive LengthUnit where
  | Mm
  deriving DecidableEq, Repr

/-- Embedding of `svgtypes::Length` (a number with a unit tag), the
element type of the `dimensions` array in `main`. -/
structure Length where
  number : ℚ
  unit : LengthUnit
  deriving DecidableEq, Repr

/-- Outcome of the dimension-resolution block of `main`: either the final
value of the `dimensions` array (a pair of optional lengths), or the
abort caused by `.parse::<f64>().unwrap()` on a parse failure. -/
inductive ResolveResult where
  | ok (dims : Option Length × Option Length)
  | panic
  deriving DecidableEq, Repr

/-- The `scaling_factor` binding of `main`: the user-supplied scale when
present, `1.0` otherwise. -/
def scalingFactor (scale : Option ℚ) : ℚ :=
  match scale with
  | some s => s
  | none => 1

/-- The dimension-resolution block of `main`: `dimensions` starts as
`[None, None]`; when both attributes are present, each is sanitised,
parsed (`unwrap` panics on failure, width first), multiplied by the
scaling factor and stored with unit `Mm`. -/
def resolveDimensions (doc_width doc_height : Option (List Char))
    (scaling_factor : ℚ) : ResolveResult :=
  match doc_width, doc_height with
  | some ws, some hs =>
      match parseDecimal (sanitise_string ws) with
      | none => .panic
      | some wn =>
          match parseDecimal (sanitise_string hs) with
          | none => .panic
          | some hn =>
              .ok (some ⟨wn * scaling_factor, .Mm⟩,
                   some ⟨hn * scaling_factor, .Mm⟩)
  | _, _ => .ok (none, none)

theorem foldl_push_filter (p : Char → Bool) (s acc : List Char) :
    s.foldl (fun os c => if p c then os ++ [c] else os) acc = acc ++ s.filter p := by
  induction s generalizing acc with
  | nil => simp
  | cons c s ih =>
      cases hc : p c <;> simp [List.foldl_cons, List.filter_cons, hc, ih]

theorem sanitise_eq_filter (s : List Char) :
    sanitise_string s = s.filter (fun c => rustIsNumeric c || c = '.') := by
  have h := foldl_push_filter (fun c => rustIsNumeric c || c = '.') s []
  rw [List.nil_append] at h
  exact h

theorem compact_eq_join (ts : List (List Char)) :
    compact ts = (ts.map renderToken).flatten := by
  have h : ∀ acc : List Char,
      ts.foldl (fun out t => out ++ renderToken t) acc =
        acc ++ (ts.map renderToken).flatten := by
    induction ts with
    | nil => intro acc; simp
    | cons t ts ih => intro acc; simp [List.foldl_cons, ih, List.append_assoc]
  simpa using h []

theorem resolveDimensions_both_some (ws hs : List Char) (scale wn hn : ℚ)
    (hw : parseDecimal (sanitise_string ws) = some wn)
    (hh : parseDecimal (sanitise_string hs) = some hn) :
    resolveDimensions (some ws) (some hs) scale =
      .ok (some ⟨wn * scale, .Mm⟩, some ⟨hn * scale, .Mm⟩) := by
  simp [resolveDimensions, hw, hh]

theorem resolveDimensions_parse_fail (ws hs : List Char) (scale : ℚ)
    (hfail : parseDecimal (sanitise_string ws) = none ∨
      parseDecimal (sanitise_string hs) = none) :
    resolveDimensions (some ws) (some hs) scale = .panic := by
  rcases hfail with hw | hh
  · simp [resolveDimensions, hw]
  · cases hw : parseDecimal (sanitise_string ws) with
    | none => simp [resolveDimensions, hw]
    | some wn => simp [resolveDimensions, hw, hh]

theorem count_newline_renderToken (t : List Char) (hn : '\n' ∉ t) :
    (renderToken t).count '\n' = if isCommandToken t then 1 else 0 := by
  have ht : t.count '\n' = 0 := List.count_eq_zero.mpr hn
  unfold renderToken isCommandToken
  cases hco : isCoordinateToken t with
  | true => simp [hco, List.count_cons, ht]
  | false =>
      cases hcm : isCommentToken t with
      | true => simp [hco, hcm]
      | false => simp [hco, hcm, List.count_cons, ht]

/-- C1 (counterexample): the claim fails as stated.  `char::is_numeric`
accepts every Unicode numeric character, not only ASCII digits: on the
input consisting of the single character U+0663 ARABIC-INDIC DIGIT THREE,
`sanitise_string` keeps the character, whereas the subsequence of ASCII
digits and `.` is empty. -/
theorem sanitise_ascii_only_refuted :
    sanitise_string ['٣'] ≠
      List.filter (fun c => c.isDigit || c = '.') ['٣'] ∧
    sanitise_string ['٣'] = ['٣'] := by
  decide

/-- C1 (amended): for every input string `s`, `sanitise_string` returns
exactly the subsequence of `s` consisting of the characters accepted by
Rust's `char::is_numeric` (the Unicode numeric characters, a superset of
the ASCII digits) together with `.`, in original order, and it is
idempotent. -/
theorem sanitise_filters_numeric_or_dot (s : List Char) :
    sanitise_string s = s.filter (fun c => rustIsNumeric c || c = '.') ∧
    sanitise_string (sanitise_string s) = sanitise_string s := by
  refine ⟨sanitise_eq_filter s, ?_⟩
  rw [sanitise_eq_filter, sanitise_eq_filter, List.filter_filter]
  simp

/-- C2: on the token sequence `["G1", "X10.0", "Y20.0", ";comment", "G1",
"F500"]` the compactor produces exactly `"\nG1 X10.0 Y20.0\nG1 F500"`:
a newline before each command token, coordinate/feedrate tokens appended
with a single leading space, nothing for the comment, and no trailing
newline. -/
theorem compactor_example_sequence :
    compact ["G1".toList, "X10.0".toList, "Y20.0".toList, ";comment".toList,
        "G1".toList, "F500".toList] =
      "\nG1 X10.0 Y20.0\nG1 F500".toList := by
  decide

/-- C3: when both attributes are present, each is filtered, parsed,
multiplied by the scale factor and tagged with the millimetre unit; in
particular resolving `("10mm", "20mm")` at scale factor `2` yields the
pair `(20, 40)` in millimetres. -/
theorem dimension_resolver_both_present :
    (∀ (ws hs : List Char) (scale wn hn : ℚ),
        parseDecimal (sanitise_string ws) = some wn →
        parseDecimal (sanitise_string hs) = some hn →
        resolveDimensions (some ws) (some hs) scale =
          .ok (some ⟨wn * scale, .Mm⟩, some ⟨hn * scale, .Mm⟩)) ∧
    resolveDimensions (some "10mm".toList) (some "20mm".toList) 2 =
      .ok (some ⟨20, .Mm⟩, some ⟨40, .Mm⟩) := by
  refine ⟨fun ws hs scale wn hn hw hh =>
    resolveDimensions_both_some ws hs scale wn hn hw hh, ?_⟩
  show ResolveResult.ok (some ⟨((10 : ℕ) : ℚ) * 2, .Mm⟩,
      some ⟨((20 : ℕ) : ℚ) * 2, .Mm⟩) = _
  norm_num

/-- C3 (witness): instance of the universally quantified part at
`("30", "40")` with scale factor `3`. -/
theorem dimension_resolver_both_present_witness :
    resolveDimensions (some "30".toList) (some "40".toList) 3 =
      .ok (some ⟨30 * 3, .Mm⟩, some ⟨40 * 3, .Mm⟩) :=
  dimension_resolver_both_present.1 "30".toList "40".toList 3 30 40
    (by decide) (by decide)

/-- C4: if either attribute is absent, the resolver leaves the
`dimensions` array at `[None, None]`: no parsing, no scaling, and no
partial single-dimension result. -/
theorem dimension_resolver_absent_yields_none (w h : Option (List Char))
    (scale : ℚ) (habs : w = none ∨ h = none) :
    resolveDimensions w h scale = .ok (none, none) := by
  rcases habs with rfl | rfl
  · rfl
  · cases w <;> rfl

/-- C4 (witness): both one-sided absences at concrete inputs. -/
theorem dimension_resolver_absent_yields_none_witness :
    resolveDimensions none (some "10mm".toList) 5 = .ok (none, none) ∧
    resolveDimensions (some "10mm".toList) none 5 = .ok (none, none) :=
  ⟨dimension_resolver_absent_yields_none none (some "10mm".toList) 5
      (Or.inl rfl),
   dimension_resolver_absent_yields_none (some "10mm".toList) none 5
      (Or.inr rfl)⟩

/-- C5: when both attributes are present but one of them fails to parse
after filtering, the program panics (the `unwrap` aborts); it does not
fall back to absent dimensions. -/
theorem dimension_resolver_parse_failure_panics (ws hs : List Char)
    (scale : ℚ)
    (hfail : parseDecimal (sanitise_string ws) = none ∨
      parseDecimal (sanitise_string hs) = none) :
    resolveDimensions (some ws) (some hs) scale = .panic :=
  resolveDimensions_parse_fail ws hs scale hfail

/-- C5 (witness): the three failure shapes named by the spec — an empty
attribute, multiple decimal points, and a unit string with no digits —
each abort against a well-formed other attribute. -/
theorem dimension_resolver_parse_failure_panics_witness :
    resolveDimensions (some "".toList) (some "20mm".toList) 1 = .panic ∧
    resolveDimensions (some "1.2.3".toList) (some "20mm".toList) 1 = .panic ∧
    resolveDimensions (some "20mm".toList) (some "mm".toList) 1 = .panic :=
  ⟨dimension_resolver_parse_failure_panics "".toList "20mm".toList 1
      (Or.inl (by decide)),
   dimension_resolver_parse_failure_panics "1.2.3".toList "20mm".toList 1
      (Or.inl (by decide)),
   dimension_resolver_parse_failure_panics "20mm".toList "mm".toList 1
      (Or.inr (by decide))⟩

/-- C6: the compactor classifies a token solely by its first character,
case-sensitively: first character `X`, `Y`, `Z` or `F` gives a space plus
the token; first character `;` gives no output; any other first character
(lowercase `x`, `y`, `z`, `f` included) gives a newline plus the token. -/
theorem compactor_classifies_by_first_char (c : Char) (rest : List Char) :
    ((c = 'X' ∨ c = 'Y' ∨ c = 'Z' ∨ c = 'F') →
      renderToken (c :: rest) = ' ' :: c :: rest) ∧
    (c = ';' → renderToken (c :: rest) = []) ∧
    (c ≠ 'X' → c ≠ 'Y' → c ≠ 'Z' → c ≠ 'F' → c ≠ ';' →
      renderToken (c :: rest) = '\n' :: c :: rest) := by
  refine ⟨?_, ?_, ?_⟩
  · rintro (rfl | rfl | rfl | rfl) <;> rfl
  · rintro rfl; rfl
  · intro h1 h2 h3 h4 h5
    simp [renderToken, isCoordinateToken, isCommentToken, startsWithChar,
      h1, h2, h3, h4, h5]

/-- C6 (witness): one token of each class, with a lowercase `x` token
landing in the command class. -/
theorem compactor_classifies_by_first_char_witness :
    renderToken ('X' :: "5".toList) = ' ' :: 'X' :: "5".toList ∧
    renderToken (';' :: "c".toList) = [] ∧
    renderToken ('x' :: "5".toList) = '\n' :: 'x' :: "5".toList :=
  ⟨(compactor_classifies_by_first_char 'X' "5".toList).1 (Or.inl rfl),
   (compactor_classifies_by_first_char ';' "c".toList).2.1 rfl,
   (compactor_classifies_by_first_char 'x' "5".toList).2.2
      (by decide) (by decide) (by decide) (by decide) (by decide)⟩

/-- C7: a sequence of only coordinate tokens with no preceding command
token renders with a leading space and no newline: `["X5", "Y5"]`
produces `" X5 Y5"`. -/
theorem compactor_coordinate_only_leading_space :
    compact ["X5".toList, "Y5".toList] = " X5 Y5".toList := by
  decide

/-- C8 (counterexample): the claim fails as stated for a token that
itself contains a newline: `["G1\n"]` has no comment token and one
command-class token, yet the output `"\nG1\n"` contains two newline
characters. -/
theorem newline_count_refuted :
    isCommentToken ('G' :: '1' :: '\n' :: []) = false ∧
    (compact [('G' :: '1' :: '\n' :: [])]).count '\n' = 2 ∧
    List.countP (fun t => isCommandToken t)
      [('G' :: '1' :: '\n' :: [])] = 1 := by
  decide

/-- C8 (amended): for every token sequence containing no comment tokens
and whose tokens contain no newline characters, the number of newline
characters in the compactor's output equals the number of command-class
tokens. -/
theorem newline_count_eq_command_count (ts : List (List Char))
    (h : ∀ t ∈ ts, isCommentToken t = false ∧ '\n' ∉ t) :
    (compact ts).count '\n' =
      List.countP (fun t => isCommandToken t) ts := by
  rw [compact_eq_join]
  induction ts with
  | nil => rfl
  | cons t ts ih =>
      have ht := h t (List.mem_cons_self t ts)
      have hts := fun u hu => h u (List.mem_cons_of_mem t hu)
      rw [List.map_cons, List.flatten_cons, List.count_append,
        List.countP_cons, ih hts, count_newline_renderToken t ht.2]
      cases hcmd : isCommandToken t <;> simp [hcmd, Nat.add_comm]

/-- C8 (witness): the amended statement at a concrete comment-free,
newline-free sequence with two command tokens. -/
theorem newline_count_eq_command_count_witness :
    (compact ["G1".toList, "X1".toList, "G0".toList]).count '\n' =
      List.countP (fun t => isCommandToken t)
        ["G1".toList, "X1".toList, "G0".toList] :=
  newline_count_eq_command_count
    ["G1".toList, "X1".toList, "G0".toList] (by decide)

/-- C9: the compactor is a list homomorphism: its output is the
concatenation of a fixed per-token rendering, so the output of a
concatenated sequence is the concatenation of the outputs — no
cross-token state affects rendering. -/
theorem compactor_is_list_homomorphism (xs ys : List (List Char)) :
    compact (xs ++ ys) = compact xs ++ compact ys ∧
    compact xs = (xs.map renderToken).flatten := by
  refine ⟨?_, compact_eq_join xs⟩
  rw [compact_eq_join, compact_eq_join, compact_eq_join, List.map_append,
    List.flatten_append]

/-- C10: the resolver does not restrict the scale factor's sign: for any
rational scale factor, including `0` and negative values, a successful
parse of both attributes yields the parsed values multiplied by that
factor, and an omitted scale option defaults to exactly `1`. -/
theorem scale_factor_unrestricted (ws hs : List Char) (scale wn hn : ℚ)
    (hw : parseDecimal (sanitise_string ws) = some wn)
    (hh : parseDecimal (sanitise_string hs) = some hn) :
    resolveDimensions (some ws) (some hs) scale =
      .ok (some ⟨wn * scale, .Mm⟩, some ⟨hn * scale, .Mm⟩) ∧
    scalingFactor none = 1 :=
  ⟨resolveDimensions_both_some ws hs scale wn hn hw hh, rfl⟩

/-- C10 (witness): a negative and a zero scale factor are both accepted,
producing negative and zero magnitudes. -/
theorem scale_factor_unrestricted_witness :
    (resolveDimensions (some "3".toList) (some "4".toList) (-2) =
      .ok (some ⟨3 * (-2), .Mm⟩, some ⟨4 * (-2), .Mm⟩) ∧
      scalingFactor none = 1) ∧
    (resolveDimensions (some "3".toList) (some "4".toList) 0 =
      .ok (some ⟨3 * 0, .Mm⟩, some ⟨4 * 0, .Mm⟩) ∧
      scalingFactor none = 1) :=
  ⟨scale_factor_unrestricted "3".toList "4".toList (-2) 3 4
      (by decide) (by decide),
   scale_factor_unrestricted "3".toList "4".toList 0 3 4
      (by decide) (by decide)⟩

end USGcodeIfier
